import Mathlib

/-!
Verification of the tophamm deconz serial driver (Rust) against its
natural-language specification.

The definitions below are a shallow embedding of the Rust sources:

  * `src/deconz/src/types.rs`       — protocol data types
  * `src/deconz/src/parameters.rs`  — parameter ids and payloads
  * `src/deconz/src/errors.rs`      — error taxonomy
  * `src/deconz/src/protocol.rs`    — wire codec (`Request::into_frame`,
                                      `Response::from_frame`)
  * `src/deconz/src/deconz.rs`      — serial multiplexer (`Deconz::make_request`,
                                      the `Tx` and `Rx` tasks, `serial_waiters`)
  * `src/src/aps.rs`                — data coordinator (`Aps::task`)
  * `src/deconz/src/aps.rs`         — confirm poller (`ApsConfirms::aps_data_confirm`)
  * `src/tophamm-helpers/src/awaiting.rs` — the `Awaiting` correlation table

Machine integers (`u8`, `u16`, `u64`) are embedded as `Nat` with explicit
`% 2^w` reductions at the points where the Rust code can overflow or wraps.
Byte buffers (`Vec<u8>`) are `List Nat`.  Asynchronous tasks are embedded as
explicit step functions over event traces: each event is one firing of a
task's suspension point, carrying the outcome of any external interaction
(transport write result, serial round-trip result) as an oracle value, since
those outcomes are produced outside the modelled code.
-/

namespace Tophamm

/-! ### Data types, from `src/deconz/src/types.rs` -/

/-- Embedding of `pub type SequenceId = u8`. -/
abbrev SequenceId := Nat

/-- Embedding of `pub type RequestId = u8` (`src/deconz/src/protocol.rs`). -/
abbrev RequestId := Nat

/-- Embedding of `pub struct Endpoint(pub u8)`. -/
structure Endpoint where
  val : Nat
deriving DecidableEq, Repr

/-- Embedding of `pub struct ProfileId(pub u16)`. -/
structure ProfileId where
  val : Nat
deriving DecidableEq, Repr

/-- Embedding of `pub struct ClusterId(pub u16)`. -/
structure ClusterId where
  val : Nat
deriving DecidableEq, Repr

/-- Embedding of `pub struct ShortAddress(pub u16)`. -/
structure ShortAddress where
  val : Nat
deriving DecidableEq, Repr

/-- Embedding of `pub struct ExtendedAddress(pub u64)`. -/
structure ExtendedAddress where
  val : Nat
deriving DecidableEq, Repr

/-- Embedding of `pub enum Platform`. -/
inductive Platform where
  | Avr
  | Arm
  | Unknown (byte : Nat)
deriving DecidableEq, Repr

/-- Embedding of `pub struct Version { major: u8, minor: u8 }`. -/
structure Version where
  major : Nat
  minor : Nat
deriving DecidableEq, Repr

/-- Embedding of `pub enum NetworkState`. -/
inductive NetworkState where
  | Offline
  | Joining
  | Connected
  | Leaving
deriving DecidableEq, Repr

/-- Embedding of `pub struct DeviceState`, the decoded device-state bitfield. -/
structure DeviceState where
  network_state : NetworkState
  data_confirm : Bool
  data_indication : Bool
  data_request_free_slots : Bool
  configuration_changed : Bool
deriving DecidableEq, Repr

/-- Embedding of `impl Default for DeviceState`. -/
def DeviceState.default : DeviceState :=
  { network_state := NetworkState.Offline
    data_confirm := false
    data_indication := false
    data_request_free_slots := false
    configuration_changed := false }

/-- Embedding of `pub enum DestinationAddress`. -/
inductive DestinationAddress where
  | Group (addr : ShortAddress)
  | Nwk (addr : ShortAddress)
  | Ieee (addr : ExtendedAddress)
deriving DecidableEq, Repr

/-- Embedding of `pub struct SourceAddress`. -/
structure SourceAddress where
  short : ShortAddress
  extended : ExtendedAddress
deriving DecidableEq, Repr

/-- Embedding of `pub struct ApsDataIndication`; `asdu: Vec<u8>` is `List Nat`. -/
structure ApsDataIndication where
  destination_address : DestinationAddress
  destination_endpoint : Endpoint
  source_address : SourceAddress
  source_endpoint : Endpoint
  profile_id : ProfileId
  cluster_id : ClusterId
  asdu : List Nat
deriving DecidableEq, Repr

/-- Embedding of `pub enum Destination`. -/
inductive Destination where
  | Group (addr : ShortAddress)
  | Nwk (addr : ShortAddress) (endpoint : Endpoint)
  | Ieee (addr : ExtendedAddress) (endpoint : Endpoint)
deriving DecidableEq, Repr

/-- Embedding of `pub struct ApsDataRequest`. -/
structure ApsDataRequest where
  destination : Destination
  profile_id : ProfileId
  cluster_id : ClusterId
  source_endpoint : Endpoint
  asdu : List Nat
deriving DecidableEq, Repr

/-- Embedding of `pub struct ApsDataConfirm`. -/
structure ApsDataConfirm where
  destination : Destination
  source_endpoint : Endpoint
  status : Nat
deriving DecidableEq, Repr

/-! ### Parameters, from `src/deconz/src/parameters.rs` -/

/-- Embedding of `pub enum ParameterId` (the `define_parameters!` expansion). -/
inductive ParameterId where
  | MacAddress
  | NwkPanId
  | NwkAddress
  | NwkExtendedPanId
  | ApsDesignatedCoordinator
  | ChannelMask
  | ApsExtendedPanId
  | TrustCenterAddress
  | SecurityMode
  | NetworkKey
  | CurrentChannel
  | ProtocolVersion
  | NwkUpdateId
  | WatchdogTtl
deriving DecidableEq, Repr

/-- Embedding of `pub enum Parameter`: each variant carries its typed value
(`u8`/`u16`/`u32`/`u64`), embedded as `Nat`. -/
inductive Parameter where
  | MacAddress (v : Nat)
  | NwkPanId (v : Nat)
  | NwkAddress (v : Nat)
  | NwkExtendedPanId (v : Nat)
  | ApsDesignatedCoordinator (v : Nat)
  | ChannelMask (v : Nat)
  | ApsExtendedPanId (v : Nat)
  | TrustCenterAddress (v : Nat)
  | SecurityMode (v : Nat)
  | NetworkKey (v : Nat)
  | CurrentChannel (v : Nat)
  | ProtocolVersion (v : Nat)
  | NwkUpdateId (v : Nat)
  | WatchdogTtl (v : Nat)
deriving DecidableEq, Repr

/-- Embedding of `Parameter::id`. -/
def Parameter.id : Parameter → ParameterId
  | .MacAddress _ => .MacAddress
  | .NwkPanId _ => .NwkPanId
  | .NwkAddress _ => .NwkAddress
  | .NwkExtendedPanId _ => .NwkExtendedPanId
  | .ApsDesignatedCoordinator _ => .ApsDesignatedCoordinator
  | .ChannelMask _ => .ChannelMask
  | .ApsExtendedPanId _ => .ApsExtendedPanId
  | .TrustCenterAddress _ => .TrustCenterAddress
  | .SecurityMode _ => .SecurityMode
  | .NetworkKey _ => .NetworkKey
  | .CurrentChannel _ => .CurrentChannel
  | .ProtocolVersion _ => .ProtocolVersion
  | .NwkUpdateId _ => .NwkUpdateId
  | .WatchdogTtl _ => .WatchdogTtl

/-- Width in bytes of each parameter's typed value (`ConvertParameter::len`
at the type the `define_parameters!` table assigns to the id). -/
def ParameterId.width : ParameterId → Nat
  | .MacAddress => 8
  | .NwkPanId => 2
  | .NwkAddress => 2
  | .NwkExtendedPanId => 8
  | .ApsDesignatedCoordinator => 1
  | .ChannelMask => 4
  | .ApsExtendedPanId => 8
  | .TrustCenterAddress => 8
  | .SecurityMode => 1
  | .NetworkKey => 1
  | .CurrentChannel => 1
  | .ProtocolVersion => 2
  | .NwkUpdateId => 1
  | .WatchdogTtl => 4

/-- Embedding of `Parameter::len`. -/
def Parameter.len (p : Parameter) : Nat :=
  p.id.width

/-- Embedding of `impl From<ParameterId> for u8`. -/
def ParameterId.toByte : ParameterId → Nat
  | .MacAddress => 0x01
  | .NwkPanId => 0x05
  | .NwkAddress => 0x07
  | .NwkExtendedPanId => 0x08
  | .ApsDesignatedCoordinator => 0x09
  | .ChannelMask => 0x0A
  | .ApsExtendedPanId => 0x0B
  | .TrustCenterAddress => 0x0E
  | .SecurityMode => 0x10
  | .NetworkKey => 0x18
  | .CurrentChannel => 0x1C
  | .ProtocolVersion => 0x22
  | .NwkUpdateId => 0x24
  | .WatchdogTtl => 0x26

/-- Embedding of `impl TryFrom<u8> for ParameterId`; `none` stands for the
`UnsupportedParameter` error arm (the caller wraps it). -/
def ParameterId.fromByte (byte : Nat) : Option ParameterId :=
  if byte = 0x01 then some .MacAddress
  else if byte = 0x05 then some .NwkPanId
  else if byte = 0x07 then some .NwkAddress
  else if byte = 0x08 then some .NwkExtendedPanId
  else if byte = 0x09 then some .ApsDesignatedCoordinator
  else if byte = 0x0A then some .ChannelMask
  else if byte = 0x0B then some .ApsExtendedPanId
  else if byte = 0x0E then some .TrustCenterAddress
  else if byte = 0x10 then some .SecurityMode
  else if byte = 0x18 then some .NetworkKey
  else if byte = 0x1C then some .CurrentChannel
  else if byte = 0x22 then some .ProtocolVersion
  else if byte = 0x24 then some .NwkUpdateId
  else if byte = 0x26 then some .WatchdogTtl
  else none

/-- Helper building a `Parameter` from an id and its decoded value
(the per-id arms of `ParameterId::read_parameter`). -/
def ParameterId.mkParameter : ParameterId → Nat → Parameter
  | .MacAddress, v => .MacAddress v
  | .NwkPanId, v => .NwkPanId v
  | .NwkAddress, v => .NwkAddress v
  | .NwkExtendedPanId, v => .NwkExtendedPanId v
  | .ApsDesignatedCoordinator, v => .ApsDesignatedCoordinator v
  | .ChannelMask, v => .ChannelMask v
  | .ApsExtendedPanId, v => .ApsExtendedPanId v
  | .TrustCenterAddress, v => .TrustCenterAddress v
  | .SecurityMode, v => .SecurityMode v
  | .NetworkKey, v => .NetworkKey v
  | .CurrentChannel, v => .CurrentChannel v
  | .ProtocolVersion, v => .ProtocolVersion v
  | .NwkUpdateId, v => .NwkUpdateId v
  | .WatchdogTtl, v => .WatchdogTtl v

/-- The typed value carried by a `Parameter` (used when writing it). -/
def Parameter.value : Parameter → Nat
  | .MacAddress v => v
  | .NwkPanId v => v
  | .NwkAddress v => v
  | .NwkExtendedPanId v => v
  | .ApsDesignatedCoordinator v => v
  | .ChannelMask v => v
  | .ApsExtendedPanId v => v
  | .TrustCenterAddress v => v
  | .SecurityMode v => v
  | .NetworkKey v => v
  | .CurrentChannel v => v
  | .ProtocolVersion v => v
  | .NwkUpdateId v => v
  | .WatchdogTtl v => v

/-! ### Command ids, from `src/deconz/src/protocol.rs` -/

/-- Embedding of `pub enum CommandId`. -/
inductive CommandId where
  | Version
  | ReadParameter
  | WriteParameter
  | DeviceState
  | DeviceStateChanged
  | ApsDataIndication
  | ApsDataRequest
  | ApsDataConfirm
  | MacPoll
deriving DecidableEq, Repr

/-- Embedding of `CommandId::solicited`: whether a response of this kind was
solicited by a request; only `DeviceStateChanged` is unsolicited. -/
def CommandId.solicited : CommandId → Bool
  | .DeviceStateChanged => false
  | _ => true

/-- Embedding of `impl From<CommandId> for u8`. -/
def CommandId.toByte : CommandId → Nat
  | .Version => 0x0D
  | .ReadParameter => 0x0A
  | .WriteParameter => 0x0B
  | .DeviceState => 0x07
  | .DeviceStateChanged => 0x0E
  | .ApsDataIndication => 0x17
  | .ApsDataRequest => 0x12
  | .ApsDataConfirm => 0x04
  | .MacPoll => 0x1C

/-- Embedding of `impl TryFrom<u8> for CommandId`; `none` stands for the
`UnsupportedCommand` error arm (the caller wraps it). -/
def CommandId.fromByte (byte : Nat) : Option CommandId :=
  if byte = 0x0D then some .Version
  else if byte = 0x0A then some .ReadParameter
  else if byte = 0x0B then some .WriteParameter
  else if byte = 0x07 then some .DeviceState
  else if byte = 0x0E then some .DeviceStateChanged
  else if byte = 0x1C then some .MacPoll
  else if byte = 0x17 then some .ApsDataIndication
  else if byte = 0x12 then some .ApsDataRequest
  else if byte = 0x04 then some .ApsDataConfirm
  else none

/-! ### Errors, from `src/deconz/src/errors.rs` and `src/deconz/src/slip.rs` -/

/-- Embedding of `pub enum SlipError` (`src/deconz/src/slip.rs`). -/
inductive SlipError where
  | MissingCrc
  | MismatchedCrc
  | InvalidEscape
deriving DecidableEq, Repr

/-- Abstract stand-in for `std::io::Error`: the only source-level distinction
the driver code makes is "some I/O error occurred"; `unexpectedEof` is the
error a `Cursor` read past the end of the buffer produces, `other` covers
errors originating in the external transport. -/
inductive IoError where
  | unexpectedEof
  | other (code : Nat)
deriving DecidableEq, Repr

/-- Abstract stand-in for `tokio_serial::Error` (external library type). -/
structure SerialPortError where
  code : Nat
deriving DecidableEq, Repr

/-- Embedding of `pub enum ErrorKind` (`src/deconz/src/errors.rs`, lines 5-21).

The Rust `Error` struct is a transparent newtype over `ErrorKind` (one field,
`kind`); we identify the two, so `InvalidParameter`'s `inner: Box<Error>` is
embedded as a nested `ErrorKind`.

The constructor `UnsolicitedConfirm` does not appear in the `ErrorKind` enum
of `src/deconz/src/errors.rs`, but `src/deconz/src/aps.rs` (line 106)
constructs `ErrorKind::UnsolicitedConfirm(request_id)`; the two files are
from different iterations of the crate, so the constructor is included here
for the code that uses it.  Note that no constructor of this enum denotes a
timeout. -/
inductive ErrorKind where
  | DuplicateSequenceId (sequence_id : SequenceId)
  | UnsolicitedResponse (sequence_id : SequenceId)
  | UnexpectedResponse (command_id : CommandId)
  | UnsupportedCommand (byte : Nat)
  | UnsupportedParameter (byte : Nat)
  | InvalidParameter (parameter_id : ParameterId) (inner : ErrorKind)
  | Slip (e : SlipError)
  | SerialPort (e : SerialPortError)
  | Io (e : IoError)
  | ChannelError
  | Todo
  | UnsolicitedConfirm (request_id : RequestId)
deriving DecidableEq, Repr

/-- Embedding of `pub struct Error { pub kind: ErrorKind }`, identified with
its single field. -/
abbrev DriverError := ErrorKind

/-! ### Wire codec, from `src/deconz/src/protocol.rs` and `src/deconz/src/lib.rs`

Multi-byte integers are little-endian (`byteorder::LittleEndian`).  A byte
buffer is a `List Nat`; writers produce the exact byte sequence appended to
the Rust `Vec<u8>`, readers consume a cursor (the remaining byte list). -/

/-- Little-endian encoding of `v` in `w` bytes, as written by
`write_u16::<LittleEndian>` and friends (truncates above `2^(8*w)`, matching
the fixed-width machine integer). -/
def leBytes : Nat → Nat → List Nat
  | 0, _ => []
  | w + 1, v => v % 256 :: leBytes w (v / 256)

/-- Outcome of a fallible parse.  `err` is a returned `Err(Error)`; `crash`
marks the `unreachable!` / `unimplemented!` arms of `from_frame`, which panic
the reading task rather than return an error. -/
inductive ParseFail where
  | err (e : DriverError)
  | crash
deriving DecidableEq, Repr

/-- Read one byte from the cursor (`read_u8`); reading past the end of the
buffer is the `std::io` unexpected-EOF error. -/
def readU8 : List Nat → Except ParseFail (Nat × List Nat)
  | [] => .error (.err (.Io .unexpectedEof))
  | b :: rest => .ok (b % 256, rest)

/-- Read a `w`-byte little-endian integer from the cursor
(`read_u16::<LittleEndian>` and friends). -/
def readLE : Nat → List Nat → Except ParseFail (Nat × List Nat)
  | 0, rest => .ok (0, rest)
  | w + 1, bytes => do
    let (b, rest) ← readU8 bytes
    let (v, rest) ← readLE w rest
    pure (b + 256 * v, rest)

/-- Embedding of `impl ReadWire for DeviceState`: decode the device-state
bitfield from one byte. -/
def DeviceState.fromByte (byte : Nat) : DeviceState :=
  let b := byte % 256
  { network_state :=
      match b &&& 0b11 with
      | 0 => NetworkState.Offline
      | 1 => NetworkState.Joining
      | 2 => NetworkState.Connected
      | _ => NetworkState.Leaving
    data_confirm := b &&& 0b100 != 0
    data_indication := b &&& 0b1000 != 0
    data_request_free_slots := b &&& 0b100000 != 0
    configuration_changed := b &&& 0b10000 != 0 }

/-- Embedding of `impl ReadWire for Platform`. -/
def Platform.fromByte (byte : Nat) : Platform :=
  if byte = 0x05 then .Avr
  else if byte = 0x07 then .Arm
  else .Unknown byte

/-- Embedding of `Destination::wire_len`. -/
def Destination.wire_len : Destination → Nat
  | .Group _ => 2
  | .Nwk _ _ => 3
  | .Ieee _ _ => 9

/-- Embedding of `impl WriteWire for Destination`: address-mode tag, then the
address, then the endpoint when present. -/
def Destination.writeWire : Destination → List Nat
  | .Group addr => 0x1 :: leBytes 2 addr.val
  | .Nwk addr endpoint => 0x2 :: (leBytes 2 addr.val ++ leBytes 1 endpoint.val)
  | .Ieee addr endpoint => 0x3 :: (leBytes 8 addr.val ++ leBytes 1 endpoint.val)

/-- Embedding of `impl ReadWire for Destination` (used when parsing a
data-confirm payload); the `_ => unreachable!` arm is a panic. -/
def readDestination (bytes : List Nat) : Except ParseFail (Destination × List Nat) := do
  let (mode, rest) ← readU8 bytes
  if mode = 0x1 then do
    let (addr, rest) ← readLE 2 rest
    pure (Destination.Group ⟨addr⟩, rest)
  else if mode = 0x2 then do
    let (addr, rest) ← readLE 2 rest
    let (endpoint, rest) ← readU8 rest
    pure (Destination.Nwk ⟨addr⟩ ⟨endpoint⟩, rest)
  else if mode = 0x3 then do
    let (addr, rest) ← readLE 8 rest
    let (endpoint, rest) ← readU8 rest
    pure (Destination.Ieee ⟨addr⟩ ⟨endpoint⟩, rest)
  else
    throw .crash

/-- Embedding of `ParameterId::read_parameter`: decode the parameter value at
the id's width, wrapping a decode failure in `InvalidParameter`.  The
`protocol.rs` call site hands it the payload cursor, from which the value is
read. -/
def ParameterId.read_parameter (id : ParameterId) (bytes : List Nat) :
    Except ParseFail (Parameter × List Nat) :=
  match readLE id.width bytes with
  | .ok (v, rest) => .ok (id.mkParameter v, rest)
  | .error (.err e) => .error (.err (.InvalidParameter id e))
  | .error .crash => .error .crash

/-! ### Requests and `into_frame`, from `src/deconz/src/protocol.rs` -/

/-- Embedding of `pub enum Request`. -/
inductive Request where
  | Version
  | ReadParameter (parameter_id : ParameterId)
  | WriteParameter (parameter : Parameter)
  | DeviceState
  | ApsDataIndication
  | ApsDataRequest (request_id : RequestId) (req : ApsDataRequest)
  | ApsDataConfirm
deriving DecidableEq, Repr

/-- Embedding of `Request::command_id`. -/
def Request.command_id : Request → CommandId
  | .Version => .Version
  | .ReadParameter _ => .ReadParameter
  | .WriteParameter _ => .WriteParameter
  | .DeviceState => .DeviceState
  | .ApsDataIndication => .ApsDataIndication
  | .ApsDataRequest _ _ => .ApsDataRequest
  | .ApsDataConfirm => .ApsDataConfirm

/-- Embedding of `Request::payload_len`; `asdu.len() as u16` truncates
mod `2^16`. -/
def Request.payload_len : Request → Option Nat
  | .Version => none
  | .ReadParameter _ => some 1
  | .WriteParameter parameter => some (1 + parameter.len)
  | .DeviceState => none
  | .ApsDataIndication => some 1
  | .ApsDataRequest _ req =>
      some (12 + req.destination.wire_len + req.asdu.length % 65536)
  | .ApsDataConfirm => some 0

/-- Embedding of `Request::write_payload`: the bytes appended to the frame
buffer after the header and payload-length field. -/
def Request.write_payload : Request → List Nat
  | .Version => []
  | .ReadParameter parameter_id => [parameter_id.toByte]
  | .WriteParameter parameter =>
      parameter.id.toByte :: leBytes parameter.len parameter.value
  | .DeviceState => []
  | .ApsDataIndication => [4]
  | .ApsDataRequest request_id req =>
      leBytes 1 request_id
        ++ [0]                                -- flags
        ++ req.destination.writeWire
        ++ leBytes 2 req.profile_id.val
        ++ leBytes 2 req.cluster_id.val
        ++ leBytes 1 req.source_endpoint.val
        ++ leBytes 2 req.asdu.length
        ++ req.asdu.map (· % 256)
        ++ [0x04]                             -- tx options, use aps acks
        ++ [0]                                -- radius, infinite hops
  | .ApsDataConfirm => []

/-- Embedding of `const HEADER_LEN: u16 = 5`. -/
def HEADER_LEN : Nat := 5

/-- Embedding of `Request::into_frame`: command id, sequence id, reserved
zero, 2-byte total frame length, then (when a payload exists) the 2-byte
payload length and the payload.  Writing into an in-memory `Vec<u8>` cannot
fail, so the `Result` is always `Ok`. -/
def Request.into_frame (req : Request) (sequence_id : SequenceId) :
    Except DriverError (List Nat) :=
  let payload_len := req.payload_len
  let frame_len := HEADER_LEN +
    (match payload_len with
     | some p => 2 + p
     | none => 0)
  .ok (req.command_id.toByte
        :: (leBytes 1 sequence_id ++ [0] ++ leBytes 2 frame_len)
        ++ (match payload_len with
            | some p => leBytes 2 p
            | none => [])
        ++ req.write_payload)

/-! ### Responses and `from_frame`, from `src/deconz/src/protocol.rs` -/

/-- Embedding of `pub enum Response`. -/
inductive Response where
  | Version (version : Version) (platform : Platform)
  | Parameter (p : Parameter)
  | WriteParameter (parameter_id : ParameterId)
  | DeviceState (device_state : DeviceState)
  | DeviceStateChanged (device_state : DeviceState)
  | ApsDataIndication (device_state : DeviceState)
      (aps_data_indication : ApsDataIndication)
  | ApsDataRequest (device_state : DeviceState) (request_id : RequestId)
  | ApsDataConfirm (device_state : DeviceState) (request_id : RequestId)
      (aps_data_confirm : ApsDataConfirm)
  | MacPoll (address : Nat)
deriving DecidableEq, Repr

/-- Embedding of `Response::command_id`. -/
def Response.command_id : Response → CommandId
  | .Version _ _ => .Version
  | .Parameter _ => .ReadParameter
  | .WriteParameter _ => .WriteParameter
  | .DeviceState _ => .DeviceState
  | .DeviceStateChanged _ => .DeviceStateChanged
  | .ApsDataIndication _ _ => .ApsDataIndication
  | .ApsDataRequest _ _ => .ApsDataRequest
  | .ApsDataConfirm _ _ _ => .ApsDataConfirm
  | .MacPoll _ => .MacPoll

/-- Embedding of `Response::solicited`. -/
def Response.solicited (r : Response) : Bool :=
  r.command_id.solicited

/-- Embedding of `Response::device_state`: the embedded `DeviceState` when
present. -/
def Response.device_state : Response → Option Tophamm.DeviceState
  | .DeviceState device_state => some device_state
  | .DeviceStateChanged device_state => some device_state
  | .ApsDataIndication device_state _ => some device_state
  | .ApsDataRequest device_state _ => some device_state
  | _ => none

/-- Embedding of the `CommandId::ApsDataIndication` arm of `from_frame`
(after the payload-length and device-state bytes are consumed): destination
address (unknown mode panics), endpoint, source address (only mode `0x4`
supported, others panic), endpoint, profile, cluster, then the asdu.  The
asdu buffer is preallocated at `asdu_length` zeros and `Read::read` fills
only the bytes available, so a short payload leaves trailing zeros. -/
def parseIndicationBody (bytes : List Nat) :
    Except ParseFail ApsDataIndication := do
  let (dmode, rest) ← readU8 bytes
  let (destination_address, rest) ←
    if dmode = 0x1 then do
      let (a, rest) ← readLE 2 rest
      pure (DestinationAddress.Group ⟨a⟩, rest)
    else if dmode = 0x2 then do
      let (a, rest) ← readLE 2 rest
      pure (DestinationAddress.Nwk ⟨a⟩, rest)
    else if dmode = 0x3 then do
      let (a, rest) ← readLE 8 rest
      pure (DestinationAddress.Ieee ⟨a⟩, rest)
    else throw ParseFail.crash
  let (destination_endpoint, rest) ← readU8 rest
  let (smode, rest) ← readU8 rest
  if smode = 0x4 then do
    let (short, rest) ← readLE 2 rest
    let (extended, rest) ← readLE 8 rest
    let (source_endpoint, rest) ← readU8 rest
    let (profile_id, rest) ← readLE 2 rest
    let (cluster_id, rest) ← readLE 2 rest
    let (asdu_length, rest) ← readLE 2 rest
    let asdu := (rest.take asdu_length).map (· % 256)
        ++ List.replicate (asdu_length - rest.length) 0
    pure { destination_address
           destination_endpoint := ⟨destination_endpoint⟩
           source_address := { short := ⟨short⟩, extended := ⟨extended⟩ }
           source_endpoint := ⟨source_endpoint⟩
           profile_id := ⟨profile_id⟩
           cluster_id := ⟨cluster_id⟩
           asdu }
  else throw ParseFail.crash

/-- Embedding of the command-specific arms of `Response::from_frame`: parse
the response body from the payload cursor, given the decoded command id. -/
def Response.from_frame_body (command_id : CommandId) (payload : List Nat) :
    Except ParseFail Response :=
  match command_id with
    | .Version => do
        let (platform, payload) ← readU8 payload
        let (minor, payload) ← readU8 payload
        let (major, _) ← readU8 payload
        pure (Response.Version ⟨major, minor⟩ (Platform.fromByte platform))
    | .ReadParameter => do
        let (_payload_len, payload) ← readLE 2 payload
        let (pbyte, payload) ← readU8 payload
        let parameter_id ←
          match ParameterId.fromByte pbyte with
          | some p => pure p
          | none => throw (ParseFail.err (.UnsupportedParameter pbyte))
        let (parameter, _) ← parameter_id.read_parameter payload
        pure (Response.Parameter parameter)
    | .WriteParameter => do
        let (_payload_len, payload) ← readLE 2 payload
        let (pbyte, _) ← readU8 payload
        let parameter_id ←
          match ParameterId.fromByte pbyte with
          | some p => pure p
          | none => throw (ParseFail.err (.UnsupportedParameter pbyte))
        pure (Response.WriteParameter parameter_id)
    | .DeviceState => do
        let (b, _) ← readU8 payload
        pure (Response.DeviceState (DeviceState.fromByte b))
    | .DeviceStateChanged => do
        let (b, _) ← readU8 payload
        pure (Response.DeviceStateChanged (DeviceState.fromByte b))
    | .ApsDataIndication => do
        let (_payload_len, payload) ← readLE 2 payload
        let (b, payload) ← readU8 payload
        let aps_data_indication ← parseIndicationBody payload
        pure (Response.ApsDataIndication (DeviceState.fromByte b)
          aps_data_indication)
    | .ApsDataRequest => do
        let (_payload_len, payload) ← readLE 2 payload
        let (b, payload) ← readU8 payload
        let (request_id, _) ← readU8 payload
        pure (Response.ApsDataRequest (DeviceState.fromByte b) request_id)
    | .MacPoll => do
        let (_payload_len, payload) ← readLE 2 payload
        let (_enumByte, payload) ← readU8 payload
        let (address, _) ← readLE 2 payload
        pure (Response.MacPoll address)
    | .ApsDataConfirm => do
        let (_payload_len, payload) ← readLE 2 payload
        let (b, payload) ← readU8 payload
        let (request_id, payload) ← readU8 payload
        let (destination, payload) ← readDestination payload
        let (source_endpoint, payload) ← readU8 payload
        let (status, _) ← readU8 payload
        pure (Response.ApsDataConfirm (DeviceState.fromByte b) request_id
          { destination, source_endpoint := ⟨source_endpoint⟩, status })

/-- Embedding of `Response::from_frame`: header (command id, sequence id,
reserved, 2-byte frame length), then the command-specific payload
(`from_frame_body`).  The returned sequence id is the byte at offset 1.
Unknown command bytes are `UnsupportedCommand`; the `debug_assert!` on the
payload length is compiled out in release builds and not modelled. -/
def Response.from_frame (frame : List Nat) :
    Except ParseFail (SequenceId × Response) := do
  let (command_byte, rest) ← readU8 frame
  let command_id ←
    match CommandId.fromByte command_byte with
    | some c => pure c
    | none => throw (ParseFail.err (.UnsupportedCommand command_byte))
  let (sequence_id, rest) ← readU8 rest
  let (_reserved, rest) ← readU8 rest
  let (_frame_len, payload) ← readLE 2 rest
  let kind ← Response.from_frame_body command_id payload
  pure (sequence_id, kind)

/-! ### Correlation-table primitives

Embedding of `std::collections::HashMap<Nat, Nat>` as an association list
with at most one entry per key: `insert` replaces, `remove` deletes and
returns the removed value.  Values are waiter identifiers standing for the
`oneshot::Sender` halves stored in the table. -/

/-- Lookup in a correlation table. -/
def mapLookup (m : List (Nat × Nat)) (k : Nat) : Option Nat :=
  (m.find? (fun p => p.1 == k)).map (·.2)

/-- Insert into a correlation table (`HashMap::insert`: replaces any existing
entry for the key). -/
def mapInsert (m : List (Nat × Nat)) (k v : Nat) : List (Nat × Nat) :=
  (k, v) :: m.filter (fun p => p.1 != k)

/-- Remove from a correlation table (`HashMap::remove`): the removed value,
if any, and the remaining table. -/
def mapRemove (m : List (Nat × Nat)) (k : Nat) :
    Option Nat × List (Nat × Nat) :=
  (mapLookup m k, m.filter (fun p => p.1 != k))

/-! ### Serial multiplexer, from `src/deconz/src/deconz.rs`

The `Tx` and `Rx` tasks share `Shared.awaiting` (the `serial_waiters` table,
`SequenceId → oneshot::Sender<Result<Response>>`).  Each event below is one
firing of a task suspension point:

  * `submit w request writeResult` — the `Tx` task receives the
    `SerialCommand` created by `Deconz::make_request` for waiter `w`;
    `writeResult` is the outcome of `write_frame` on the external transport
    (`none` = success).
  * `frame bytes broadcastOk` — the `Rx` task's `read_frame` yields a frame;
    `broadcastOk` records whether the device-state `watch` channel still has
    a receiver (`broadcast` fails otherwise).
  * `readError e` — `read_frame` fails; the `Rx` loop logs and continues.

Outcomes record everything the step makes observable: oneshot deliveries,
device-state broadcasts, dropped (displaced) senders and log lines. -/

/-- State shared by the serial multiplexer tasks: the `Tx` sequence-id
counter, the `serial_waiters` table, and whether the `Rx` task is still
running (it panics on a frame shorter than two bytes or on the
`unreachable!`/`unimplemented!` parse arms). -/
structure MuxState where
  sequence_id : Nat
  awaiting : List (Nat × Nat)
  rxAlive : Bool
deriving DecidableEq, Repr

/-- Initial multiplexer state built by `Deconz::new`: counter 0, empty
`serial_waiters`. -/
def initMux : MuxState :=
  { sequence_id := 0, awaiting := [], rxAlive := true }

/-- Events driving the serial multiplexer (one select/await firing each). -/
inductive SerialEvent where
  | submit (w : Nat) (request : Request) (writeResult : Option IoError)
  | frame (bytes : List Nat) (broadcastOk : Bool)
  | readError (e : DriverError)
deriving DecidableEq, Repr

/-- Observable outcomes of one multiplexer step. -/
inductive SerialOutcome where
  | resolve (w : Nat) (result : Except DriverError Response)
  | broadcast (device_state : DeviceState)
  | dropWaiter (w : Nat)
  | logUnsolicited (result : Except DriverError Response)
  | logReadError (e : DriverError)
deriving Repr

/-- Embedding of `Rx::route_response`: remove the waiter for the sequence id
and signal it; a missing waiter is logged (`rx: unexpected response`). -/
def routeResponse (aw : List (Nat × Nat)) (sid : Nat)
    (result : Except DriverError Response) :
    List (Nat × Nat) × List SerialOutcome :=
  match mapRemove aw sid with
  | (some w, aw') => (aw', [SerialOutcome.resolve w result])
  | (none, aw') => (aw', [SerialOutcome.logUnsolicited result])

/-- Embedding of `Tx::sequence_id`: return the current value and advance the
counter by 5 mod 255 (the hardware workaround; note the modulus in the code
is 255, not 256). -/
def nextSequenceId (n : Nat) : Nat :=
  (n + 5) % 255

/-- One step of the serial multiplexer on an event.

For `submit`, this is the body of the `Tx::task` loop: allocate the sequence
id, encode the frame (an encode failure is forwarded to the sender without
registering), register the waiter in `serial_waiters`, write the frame, and
on a write failure deregister and forward the error.  `HashMap::insert`
silently displaces any waiter already registered at the same sequence id;
the displaced sender is dropped, recorded as `dropWaiter` (its caller then
observes `ChannelError` from the closed oneshot).

For `frame`, this is `Rx::process_frame`: read the raw sequence-id byte at
offset 1 (a shorter frame panics the task), parse with
`Response::from_frame`; on success broadcast any embedded device-state (a
failed broadcast aborts processing before routing, because of the `?`) and
route solicited responses by the parsed sequence id; on a parse error route
the error by the raw sequence-id byte; the panicking parse arms kill the
task. -/
def muxStep (s : MuxState) : SerialEvent → MuxState × List SerialOutcome
  | .submit w request writeResult =>
    let sid := s.sequence_id
    let s := { s with sequence_id := nextSequenceId s.sequence_id }
    match request.into_frame sid with
    | .error e => (s, [SerialOutcome.resolve w (.error e)])
    | .ok _frame =>
      let dropped :=
        match mapLookup s.awaiting sid with
        | some wOld => [SerialOutcome.dropWaiter wOld]
        | none => []
      let s := { s with awaiting := mapInsert s.awaiting sid w }
      match writeResult with
      | none => (s, dropped)
      | some e =>
        match mapRemove s.awaiting sid with
        | (some w', aw') =>
            ({ s with awaiting := aw' },
             dropped ++ [SerialOutcome.resolve w' (.error (.Io e))])
        | (none, _) => (s, dropped)
  | .frame bytes broadcastOk =>
    if s.rxAlive then
      match bytes[1]? with
      | none => ({ s with rxAlive := false }, [])
      | some sidByte =>
        match Response.from_frame bytes with
        | .ok (sid, response) =>
          match response.device_state with
          | some ds =>
            if broadcastOk then
              if response.solicited then
                let (aw', outs) := routeResponse s.awaiting sid (.ok response)
                ({ s with awaiting := aw' }, SerialOutcome.broadcast ds :: outs)
              else
                (s, [SerialOutcome.broadcast ds])
            else
              -- `broadcast` returned Err: `?` aborts `process_frame` before
              -- any routing; the task logs the error and continues.
              (s, [])
          | none =>
            if response.solicited then
              let (aw', outs) := routeResponse s.awaiting sid (.ok response)
              ({ s with awaiting := aw' }, outs)
            else
              (s, [])
        | .error (.err e) =>
          let (aw', outs) := routeResponse s.awaiting (sidByte % 256) (.error e)
          ({ s with awaiting := aw' }, outs)
        | .error .crash => ({ s with rxAlive := false }, [])
    else
      (s, [])
  | .readError e =>
    if s.rxAlive then (s, [SerialOutcome.logReadError e]) else (s, [])

/-- Run the multiplexer over a list of events, accumulating outcomes. -/
def muxRun (s : MuxState) : List SerialEvent → MuxState × List SerialOutcome
  | [] => (s, [])
  | e :: es =>
    let (s', out) := muxStep s e
    let (s'', outs) := muxRun s' es
    (s'', out ++ outs)

/-- A `Deconz::make_request` call for waiter `w` resolves exactly when its
oneshot is signalled (`resolve`) or its registered sender is dropped
(`dropWaiter`, surfacing as `ChannelError`); until then the caller's
`receiver.await` is still pending. -/
def callResolved (outs : List SerialOutcome) (w : Nat) : Bool :=
  outs.any (fun o =>
    match o with
    | .resolve w' _ => w' == w
    | .dropWaiter w' => w' == w
    | _ => false)

/-! ### Data coordinator, from `src/src/aps.rs` (`Aps::task`)

The coordinator is a single task running a `tokio::select!` loop over the
device-state broadcast and the submission queue, the latter arm gated by
`request_free_slots`.  Each `ApsEvent` is one firing of a select arm; the
results of the serial round-trips made inside the arm (`make_request`) are
supplied as oracle values, since they are produced by the serial layer and
the adapter. -/

/-- Coordinator state: the `request_id` counter (`u8`), the local
`request_free_slots` flag, and the `confirm_waiters` table
(`awaiting: HashMap<RequestId, oneshot::Sender<Result<ApsDataConfirm>>>`). -/
structure ApsState where
  request_id : Nat
  request_free_slots : Bool
  awaiting : List (Nat × Nat)
deriving DecidableEq, Repr

/-- Initial coordinator state built by `Deconz::new`: `request_id: 0`,
`request_free_slots: false`, empty table. -/
def initAps : ApsState :=
  { request_id := 0, request_free_slots := false, awaiting := [] }

/-- Events driving the coordinator (one select-arm firing each).

`deviceState` carries, besides the broadcast value, the oracle results of
the indication poll and the confirm poll (used only when the corresponding
bit is set) and whether the indication sink still has a receiver.
`request` carries the submission `(request, sender)` and the oracle result
of the serial `ApsDataRequest` round-trip. -/
inductive ApsEvent where
  | deviceState (device_state : DeviceState)
      (indicationResult : Except DriverError Response)
      (confirmResult : Except DriverError Response)
      (sinkOk : Bool)
  | request (req : ApsDataRequest) (w : Nat)
      (requestResult : Except DriverError Response)
deriving Repr

/-- Observable outcomes of one coordinator step. -/
inductive ApsOutcome where
  | serialCommand (request : Request)
  | indicationForwarded (ind : ApsDataIndication)
  | confirmDelivered (w : Nat) (result : Except DriverError ApsDataConfirm)
  | logError (e : DriverError)
  | logUnroutable
deriving Repr

/-- Embedding of `Aps::route_confirm` (`src/src/aps.rs`, lines 137-151):
remove the waiter for the request id and send it the confirmation; a missing
waiter is logged (`don't know where to route response`). -/
def routeConfirm (aw : List (Nat × Nat)) (request_id : RequestId)
    (aps_data_confirm : ApsDataConfirm) :
    List (Nat × Nat) × List ApsOutcome :=
  match mapRemove aw request_id with
  | (some w, aw') =>
      (aw', [ApsOutcome.confirmDelivered w (.ok aps_data_confirm)])
  | (none, aw') => (aw', [ApsOutcome.logUnroutable])

/-- Embedding of `Aps::aps_data_indication` given the serial round-trip
result: a non-indication response is `UnexpectedResponse`; a closed sink is
`ChannelError`; errors are returned to the loop, which logs them. -/
def indicationPoll (indicationResult : Except DriverError Response)
    (sinkOk : Bool) : List ApsOutcome :=
  ApsOutcome.serialCommand Request.ApsDataIndication ::
    match indicationResult with
    | .ok (Response.ApsDataIndication _ ind) =>
        if sinkOk then [ApsOutcome.indicationForwarded ind]
        else [ApsOutcome.logError .ChannelError]
    | .ok resp =>
        [ApsOutcome.logError (.UnexpectedResponse resp.command_id)]
    | .error e => [ApsOutcome.logError e]

/-- Embedding of `Aps::aps_data_confirm` given the serial round-trip result:
a confirmation is routed with `route_confirm`; a non-confirm response is
`UnexpectedResponse`; errors are returned to the loop, which logs them. -/
def confirmPoll (aw : List (Nat × Nat))
    (confirmResult : Except DriverError Response) :
    List (Nat × Nat) × List ApsOutcome :=
  match confirmResult with
  | .ok (Response.ApsDataConfirm _ request_id confirm) =>
      let (aw', outs) := routeConfirm aw request_id confirm
      (aw', ApsOutcome.serialCommand Request.ApsDataConfirm :: outs)
  | .ok resp =>
      (aw, [ApsOutcome.serialCommand Request.ApsDataConfirm,
            ApsOutcome.logError (.UnexpectedResponse resp.command_id)])
  | .error e =>
      (aw, [ApsOutcome.serialCommand Request.ApsDataConfirm,
            ApsOutcome.logError e])

/-- One step of the coordinator on a select-arm firing, the body of the
`Aps::task` loop.

Device-state arm: mirror the flag
(`self.request_free_slots = device_state.data_request_free_slots`), then
poll for an indication when `data_indication` is set and for a confirmation
when `data_confirm` is set.

Request arm: the code guards it with `if self.request_free_slots`; a firing
with the flag down cannot happen and is modelled as a no-op.  When it fires
the flag is cleared, `aps_data_request` allocates the next request id
(`u8` increment) and performs the serial round-trip; on success the sender
is registered in `confirm_waiters`, on failure the error is logged and sent
to the submitter. -/
def apsStep (s : ApsState) : ApsEvent → ApsState × List ApsOutcome
  | .deviceState device_state indicationResult confirmResult sinkOk =>
    let s := { s with request_free_slots := device_state.data_request_free_slots }
    let indOuts :=
      if device_state.data_indication then indicationPoll indicationResult sinkOk
      else []
    if device_state.data_confirm then
      let (aw', conOuts) := confirmPoll s.awaiting confirmResult
      ({ s with awaiting := aw' }, indOuts ++ conOuts)
    else
      (s, indOuts)
  | .request req w requestResult =>
    if s.request_free_slots then
      let s := { s with request_free_slots := false }
      let rid := s.request_id
      let s := { s with request_id := (s.request_id + 1) % 256 }
      let cmd := ApsOutcome.serialCommand (Request.ApsDataRequest rid req)
      match requestResult with
      | .ok (Response.ApsDataRequest _ _) =>
          ({ s with awaiting := mapInsert s.awaiting rid w }, [cmd])
      | .ok resp =>
          (s, [cmd,
               ApsOutcome.logError (.UnexpectedResponse resp.command_id),
               ApsOutcome.confirmDelivered w
                 (.error (.UnexpectedResponse resp.command_id))])
      | .error e =>
          (s, [cmd, ApsOutcome.logError e,
               ApsOutcome.confirmDelivered w (.error e)])
    else
      (s, [])

/-- Run the coordinator over a list of select-arm firings. -/
def apsRun (s : ApsState) : List ApsEvent → ApsState × List ApsOutcome
  | [] => (s, [])
  | e :: es =>
    let (s', out) := apsStep s e
    let (s'', outs) := apsRun s' es
    (s'', out ++ outs)

/-- Whether an outcome is a data-request serial command issued to the
adapter (`Request::ApsDataRequest`, as opposed to the indication and confirm
polls). -/
def isDataRequestCmd : ApsOutcome → Bool
  | .serialCommand (Request.ApsDataRequest _ _) => true
  | _ => false

/-- Number of data-request serial commands among the outcomes. -/
def dataRequestCount (outs : List ApsOutcome) : Nat :=
  outs.countP isDataRequestCmd

/-- Whether an event is a device-state broadcast with
`data_request_free_slots = true`. -/
def isFreeTrueBroadcast : ApsEvent → Prop
  | .deviceState device_state _ _ _ => device_state.data_request_free_slots = true
  | .request _ _ _ => False

instance (e : ApsEvent) : Decidable (isFreeTrueBroadcast e) := by
  cases e <;> simp [isFreeTrueBroadcast] <;> infer_instance

/-! ### Awaiting table and confirm poller, from
`src/tophamm-helpers/src/awaiting.rs` and `src/deconz/src/aps.rs`

`Awaiting<Id, Success, Error>` is embedded at the instantiation the driver
uses, `Awaiting<RequestId, ApsDataConfirm, Error>` (`src/deconz/src/aps.rs`
line 11).  Deliveries over the stored oneshot senders are recorded as
`(waiter, result)` pairs. -/

/-- Embedding of `Awaiting::register`. -/
def Awaiting.register (m : List (Nat × Nat)) (id w : Nat) : List (Nat × Nat) :=
  mapInsert m id w

/-- Embedding of `Awaiting::deregister`. -/
def Awaiting.deregister (m : List (Nat × Nat)) (id : Nat) :
    Option Nat × List (Nat × Nat) :=
  mapRemove m id

/-- Embedding of `Awaiting::send` (`src/tophamm-helpers/src/awaiting.rs`,
lines 37-45): deregister the sender for the id; when present, send the
result on it (returning `None`), otherwise give the result back
(`Some result`).  The third component records the delivery made, if any. -/
def Awaiting.send (m : List (Nat × Nat)) (id : Nat)
    (result : Except DriverError ApsDataConfirm) :
    Option (Except DriverError ApsDataConfirm) × List (Nat × Nat)
      × List (Nat × Except DriverError ApsDataConfirm) :=
  match Awaiting.deregister m id with
  | (some w, m') => (none, m', [(w, result)])
  | (none, m') => (some result, m', [])

/-- Embedding of `ApsConfirms::aps_data_confirm` (`src/deconz/src/aps.rs`,
lines 94-110), given the result of the `Request::ApsDataConfirm` serial
round-trip: a non-confirm response is `UnexpectedResponse`; a confirmation
is handed to `Awaiting::send`, and if the table had no waiter for its
request id the function returns the `UnsolicitedConfirm(request_id)` error
(which the `ApsConfirms::task` loop logs).  Returns the call result, the
updated table, and the deliveries made. -/
def apsDataConfirmPoll (aw : List (Nat × Nat))
    (pollResult : Except DriverError Response) :
    Except DriverError Unit × List (Nat × Nat)
      × List (Nat × Except DriverError ApsDataConfirm) :=
  match pollResult with
  | .error e => (.error e, aw, [])
  | .ok (Response.ApsDataConfirm _ request_id aps_data_confirm) =>
    match Awaiting.send aw request_id (.ok aps_data_confirm) with
    | (some _, aw', deliveries) =>
        (.error (.UnsolicitedConfirm request_id), aw', deliveries)
    | (none, aw', deliveries) => (.ok (), aw', deliveries)
  | .ok resp => (.error (.UnexpectedResponse resp.command_id), aw, [])

/-! ### Lemmas about the correlation-table primitives -/

theorem mapLookup_filter_self (m : List (Nat × Nat)) (k : Nat) :
    mapLookup (m.filter (fun p => p.1 != k)) k = none := by
  induction m with
  | nil => rfl
  | cons p m ih =>
    rcases eq_or_ne p.1 k with h | h
    · rw [List.filter_cons_of_neg (by simp [h])]
      exact ih
    · rw [List.filter_cons_of_pos (by simp [h])]
      unfold mapLookup
      rw [List.find?_cons_of_neg _ (by simp [h])]
      exact ih

theorem mapLookup_filter_ne (m : List (Nat × Nat)) (k k' : Nat)
    (h : k' ≠ k) :
    mapLookup (m.filter (fun p => p.1 != k)) k' = mapLookup m k' := by
  induction m with
  | nil => rfl
  | cons p m ih =>
    rcases eq_or_ne p.1 k with hp | hp
    · have hpk : p.1 ≠ k' := by
        rw [hp]; exact fun hk => h hk.symm
      rw [List.filter_cons_of_neg (by simp [hp]), ih]
      unfold mapLookup
      rw [List.find?_cons_of_neg _ (by simp [hpk])]
    · rcases eq_or_ne p.1 k' with hq | hq
      · rw [List.filter_cons_of_pos (by simp [hp])]
        unfold mapLookup
        rw [List.find?_cons_of_pos _ (by simp [hq]),
          List.find?_cons_of_pos _ (by simp [hq])]
      · rw [List.filter_cons_of_pos (by simp [hp])]
        unfold mapLookup
        rw [List.find?_cons_of_neg _ (by simp [hq]),
          List.find?_cons_of_neg _ (by simp [hq])]
        exact ih

theorem mapLookup_filter_some (m : List (Nat × Nat)) (k k' v : Nat)
    (h : mapLookup (m.filter (fun p => p.1 != k)) k' = some v) :
    mapLookup m k' = some v := by
  rcases eq_or_ne k' k with rfl | hne
  · rw [mapLookup_filter_self] at h
    exact absurd h (by simp)
  · rwa [mapLookup_filter_ne m k k' hne] at h

theorem mapLookup_insert_self (m : List (Nat × Nat)) (k v : Nat) :
    mapLookup (mapInsert m k v) k = some v := by
  unfold mapInsert mapLookup
  rw [List.find?_cons_of_pos _ (by simp)]
  rfl

theorem mapLookup_insert_ne (m : List (Nat × Nat)) (k v k' : Nat)
    (h : k' ≠ k) :
    mapLookup (mapInsert m k v) k' = mapLookup m k' := by
  unfold mapInsert
  have hstep : mapLookup ((k, v) :: m.filter (fun p => p.1 != k)) k'
      = mapLookup (m.filter (fun p => p.1 != k)) k' := by
    unfold mapLookup
    rw [List.find?_cons_of_neg _ (by simp [Ne.symm h])]
  rw [hstep, mapLookup_filter_ne m k k' h]

theorem filter_eq_self_of_lookup_none (m : List (Nat × Nat)) (k : Nat)
    (h : mapLookup m k = none) :
    m.filter (fun p => p.1 != k) = m := by
  induction m with
  | nil => rfl
  | cons p m ih =>
    rcases eq_or_ne p.1 k with hp | hp
    · exact absurd h (by simp [mapLookup, List.find?_cons, hp])
    · have h' : mapLookup m k = none := by
        simpa [mapLookup, List.find?_cons, hp] using h
      simp [List.filter_cons, hp, ih h']

/-! ### Claim C1 — serial submissions without a response

The claim asserts a 500 ms timeout: a submission whose response never
arrives resolves with a timeout error, with the waiter removed by then.  The
code of `Deconz::make_request`, the `Tx`/`Rx` tasks and `ErrorKind` contains
no timer and no timeout error kind, so no timeout is ever applied: such a
submission stays pending, with its waiter entry in `serial_waiters`, until a
frame carrying its sequence id arrives or — after 51 further submissions,
when the counter advancing by 5 mod 255 reuses the id — `HashMap::insert`
displaces the entry and the call surfaces `ChannelError` instead. -/

theorem except_bind_ok {α β γ : Type} (m : Except γ α) (f : α → Except γ β)
    (v : β) (h : m >>= f = Except.ok v) :
    ∃ a, m = Except.ok a ∧ f a = Except.ok v := by
  cases m with
  | error e =>
    exact absurd h (by simp [Bind.bind, Except.bind])
  | ok a =>
    exact ⟨a, rfl, by simpa [Bind.bind, Except.bind] using h⟩

theorem readU8_ok (bytes : List Nat) (b : Nat) (rest : List Nat)
    (h : readU8 bytes = .ok (b, rest)) :
    ∃ x, bytes = x :: rest ∧ b = x % 256 := by
  cases bytes with
  | nil => exact absurd h (by simp [readU8])
  | cons x t =>
    refine ⟨x, ?_, ?_⟩ <;> simp [readU8] at h <;> simp [h.1, h.2]

/-- A successful `Response::from_frame` returns the sequence id read at
offset 1 of the raw frame (reduced to a byte). -/
theorem from_frame_seq (frame : List Nat) (sid : SequenceId) (resp : Response)
    (h : Response.from_frame frame = .ok (sid, resp)) :
    ∃ b, frame[1]? = some b ∧ sid = b % 256 := by
  unfold Response.from_frame at h
  obtain ⟨⟨cb, rest0⟩, h1, h2⟩ := except_bind_ok _ _ _ h
  dsimp only at h2
  rcases hcid : CommandId.fromByte cb with _ | c
  · rw [hcid] at h2
    exact absurd h2 (by
      simp [Bind.bind, Except.bind, throw, throwThe, MonadExceptOf.throw])
  · rw [hcid] at h2
    obtain ⟨c', h3, h4⟩ := except_bind_ok _ _ _ h2
    obtain ⟨⟨sb, rest1⟩, h5, h6⟩ := except_bind_ok _ _ _ h4
    obtain ⟨⟨_rv, rest2⟩, _h7, h8⟩ := except_bind_ok _ _ _ h6
    obtain ⟨⟨_fl, payload⟩, _h9, h10⟩ := except_bind_ok _ _ _ h8
    obtain ⟨kind, _h11, h12⟩ := except_bind_ok _ _ _ h10
    have hsid : sid = sb := by
      have hpair : (sb, kind) = (sid, resp) := by
        simpa [Pure.pure, Except.pure] using h12
      exact (congrArg Prod.fst hpair).symm
    obtain ⟨x, hx, _⟩ := readU8_ok frame cb rest0 h1
    obtain ⟨y, hy, hsb⟩ := readU8_ok rest0 sb rest1 h5
    refine ⟨y, ?_, by rw [hsid, hsb]⟩
    rw [hx, hy]
    simp

/-- Whether a multiplexer event concerns neither the waiter `w` nor the
sequence id `sid`: any frame must carry a different sequence-id byte at
offset 1, read errors are harmless, and a further submission must use a
different (fresh) oneshot than `w` — each `make_request` call creates its
own channel, so distinct waiters in a run. -/
def eventSafeFor (sid w : Nat) : SerialEvent → Bool
  | .submit w' _ _ => w' != w
  | .frame bytes _ =>
    match bytes[1]? with
    | some b => b % 256 != sid
    | none => true
  | .readError _ => true

/-- Whether an event is a submission consumed by the `Tx` task. -/
def isSubmitEvent : SerialEvent → Bool
  | .submit _ _ _ => true
  | _ => false

/-- Number of submissions among the events. -/
def submitCount (es : List SerialEvent) : Nat :=
  es.countP isSubmitEvent

theorem routeResponse_other (aw : List (Nat × Nat)) (k : Nat)
    (r : Except DriverError Response) (sid w : Nat) (hk : k ≠ sid)
    (hw : mapLookup aw sid = some w)
    (hno : ∀ k', k' ≠ sid → mapLookup aw k' ≠ some w) :
    mapLookup (routeResponse aw k r).1 sid = some w
    ∧ (∀ k', k' ≠ sid → mapLookup (routeResponse aw k r).1 k' ≠ some w)
    ∧ callResolved (routeResponse aw k r).2 w = false := by
  unfold routeResponse mapRemove
  cases hl : mapLookup aw k with
  | none =>
    refine ⟨?_, ?_, ?_⟩
    · rw [mapLookup_filter_ne aw k sid (Ne.symm hk)]; exact hw
    · intro k' hk' hcontra
      exact hno k' hk' (mapLookup_filter_some aw k k' w hcontra)
    · simp [callResolved]
  | some w' =>
    have hww : w' ≠ w := by
      intro hww
      exact hno k hk (by rw [hl, hww])
    refine ⟨?_, ?_, ?_⟩
    · rw [mapLookup_filter_ne aw k sid (Ne.symm hk)]; exact hw
    · intro k' hk' hcontra
      exact hno k' hk' (mapLookup_filter_some aw k k' w hcontra)
    · simp [callResolved, hww]

theorem muxStep_safe (s : MuxState) (e : SerialEvent) (sid w : Nat)
    (hw : mapLookup s.awaiting sid = some w)
    (hno : ∀ k, k ≠ sid → mapLookup s.awaiting k ≠ some w)
    (hsafe : eventSafeFor sid w e = true)
    (hns : isSubmitEvent e = false) :
    mapLookup (muxStep s e).1.awaiting sid = some w
    ∧ (∀ k, k ≠ sid → mapLookup (muxStep s e).1.awaiting k ≠ some w)
    ∧ callResolved (muxStep s e).2 w = false
    ∧ (muxStep s e).1.sequence_id = s.sequence_id := by
  cases e with
  | submit w' request writeResult => exact absurd hns (by simp [isSubmitEvent])
  | readError err =>
    cases hal : s.rxAlive
    · exact ⟨by simp [muxStep, hal, hw],
        fun k hk => by simpa [muxStep, hal] using hno k hk,
        by simp [muxStep, hal, callResolved],
        by simp [muxStep, hal]⟩
    · exact ⟨by simp [muxStep, hal, hw],
        fun k hk => by simpa [muxStep, hal] using hno k hk,
        by simp [muxStep, hal, callResolved],
        by simp [muxStep, hal]⟩
  | frame bytes bok =>
    cases hal : s.rxAlive
    · exact ⟨by simp [muxStep, hal, hw],
        fun k hk => by simpa [muxStep, hal] using hno k hk,
        by simp [muxStep, hal, callResolved],
        by simp [muxStep, hal]⟩
    · cases hb : bytes[1]? with
      | none =>
        exact ⟨by simp [muxStep, hal, hb, hw],
          fun k hk => by simpa [muxStep, hal, hb] using hno k hk,
          by simp [muxStep, hal, hb, callResolved],
          by simp [muxStep, hal, hb]⟩
      | some sb =>
        have hsb : sb % 256 ≠ sid := by
          simpa [eventSafeFor, hb] using hsafe
        cases hf : Response.from_frame bytes with
        | error pf =>
          cases pf with
          | err perr =>
            have hro := routeResponse_other s.awaiting (sb % 256) (.error perr)
              sid w hsb hw hno
            rcases hr : routeResponse s.awaiting (sb % 256) (.error perr)
              with ⟨aw', outs⟩
            rw [hr] at hro
            exact ⟨by simpa [muxStep, hal, hb, hf, hr] using hro.1,
              fun k hk => by
                simpa [muxStep, hal, hb, hf, hr] using hro.2.1 k hk,
              by simpa [muxStep, hal, hb, hf, hr] using hro.2.2,
              by simp [muxStep, hal, hb, hf, hr]⟩
          | crash =>
            exact ⟨by simp [muxStep, hal, hb, hf, hw],
              fun k hk => by simpa [muxStep, hal, hb, hf] using hno k hk,
              by simp [muxStep, hal, hb, hf, callResolved],
              by simp [muxStep, hal, hb, hf]⟩
        | ok pr =>
          rcases pr with ⟨sid', resp⟩
          have hsid' : sid' ≠ sid := by
            obtain ⟨b, hb', hs⟩ := from_frame_seq bytes sid' resp hf
            rw [hb] at hb'
            cases hb'
            rw [hs]
            exact hsb
          have hro := routeResponse_other s.awaiting sid' (.ok resp)
            sid w hsid' hw hno
          rcases hr : routeResponse s.awaiting sid' (.ok resp)
            with ⟨aw', outs⟩
          rw [hr] at hro
          cases hds : resp.device_state with
          | none =>
            cases hsol : resp.solicited
            · exact ⟨by simp [muxStep, hal, hb, hf, hds, hsol, hw],
                fun k hk => by
                  simpa [muxStep, hal, hb, hf, hds, hsol] using hno k hk,
                by simp [muxStep, hal, hb, hf, hds, hsol, callResolved],
                by simp [muxStep, hal, hb, hf, hds, hsol]⟩
            · exact ⟨by simpa [muxStep, hal, hb, hf, hds, hsol, hr]
                  using hro.1,
                fun k hk => by
                  simpa [muxStep, hal, hb, hf, hds, hsol, hr]
                    using hro.2.1 k hk,
                by simpa [muxStep, hal, hb, hf, hds, hsol, hr] using hro.2.2,
                by simp [muxStep, hal, hb, hf, hds, hsol, hr]⟩
          | some ds =>
            cases bok
            · exact ⟨by simp [muxStep, hal, hb, hf, hds, hw],
                fun k hk => by
                  simpa [muxStep, hal, hb, hf, hds] using hno k hk,
                by simp [muxStep, hal, hb, hf, hds, callResolved],
                by simp [muxStep, hal, hb, hf, hds]⟩
            · cases hsol : resp.solicited
              · exact ⟨by simp [muxStep, hal, hb, hf, hds, hsol, hw],
                  fun k hk => by
                    simpa [muxStep, hal, hb, hf, hds, hsol] using hno k hk,
                  by simp [muxStep, hal, hb, hf, hds, hsol, callResolved],
                  by simp [muxStep, hal, hb, hf, hds, hsol]⟩
              · exact ⟨by simpa [muxStep, hal, hb, hf, hds, hsol, hr]
                    using hro.1,
                  fun k hk => by
                    simpa [muxStep, hal, hb, hf, hds, hsol, hr]
                      using hro.2.1 k hk,
                  by simpa [muxStep, hal, hb, hf, hds, hsol, hr, callResolved]
                    using hro.2.2,
                  by simp [muxStep, hal, hb, hf, hds, hsol, hr]⟩

/-- One `Tx::task` iteration for a further submission (fresh waiter `w'`,
current counter differing from `sid`): the frame always encodes, the waiter
possibly displaced by `HashMap::insert` is the one registered at the current
counter (not `w`), a write failure resolves only the new waiter, and the
entry at `sid` survives; the counter advances by `nextSequenceId`. -/
theorem muxStep_submit_safe (s : MuxState) (w' : Nat) (request : Request)
    (writeResult : Option IoError) (sid w : Nat)
    (hc : s.sequence_id ≠ sid) (hw' : w' ≠ w)
    (hw : mapLookup s.awaiting sid = some w)
    (hno : ∀ k, k ≠ sid → mapLookup s.awaiting k ≠ some w) :
    mapLookup (muxStep s (.submit w' request writeResult)).1.awaiting sid
      = some w
    ∧ (∀ k, k ≠ sid →
        mapLookup (muxStep s (.submit w' request writeResult)).1.awaiting k
          ≠ some w)
    ∧ callResolved (muxStep s (.submit w' request writeResult)).2 w = false
    ∧ (muxStep s (.submit w' request writeResult)).1.sequence_id
        = nextSequenceId s.sequence_id := by
  have hins1 : mapLookup (mapInsert s.awaiting s.sequence_id w') sid = some w := by
    rw [mapLookup_insert_ne s.awaiting s.sequence_id w' sid (Ne.symm hc)]
    exact hw
  have hins2 : ∀ k, k ≠ sid →
      mapLookup (mapInsert s.awaiting s.sequence_id w') k ≠ some w := by
    intro k hk
    rcases eq_or_ne k s.sequence_id with rfl | hksid
    · rw [mapLookup_insert_self]
      simp [hw']
    · rw [mapLookup_insert_ne s.awaiting s.sequence_id w' k hksid]
      exact hno k hk
  have hdropped : ∀ wOld, mapLookup s.awaiting s.sequence_id = some wOld →
      wOld ≠ w := by
    intro wOld hOld hcontra
    exact hno s.sequence_id hc (by rw [hOld, hcontra])
  cases hwr : writeResult with
  | none =>
    cases hl : mapLookup s.awaiting s.sequence_id with
    | none =>
      exact ⟨by simpa [muxStep, Request.into_frame, hl] using hins1,
        fun k hk => by
          simpa [muxStep, Request.into_frame, hl] using hins2 k hk,
        by simp [muxStep, Request.into_frame, hl, callResolved],
        by simp [muxStep, Request.into_frame, hl]⟩
    | some wOld =>
      have hwOld := hdropped wOld hl
      exact ⟨by simpa [muxStep, Request.into_frame, hl] using hins1,
        fun k hk => by
          simpa [muxStep, Request.into_frame, hl] using hins2 k hk,
        by simp [muxStep, Request.into_frame, hl, callResolved, hwOld],
        by simp [muxStep, Request.into_frame, hl]⟩
  | some ioe =>
    have hrem : mapLookup (mapInsert s.awaiting s.sequence_id w')
        s.sequence_id = some w' := mapLookup_insert_self _ _ _
    have hfil1 : mapLookup ((mapInsert s.awaiting s.sequence_id w').filter
        (fun p => p.1 != s.sequence_id)) sid = some w := by
      rw [mapLookup_filter_ne _ _ _ (Ne.symm hc)]
      exact hins1
    have hfil2 : ∀ k, k ≠ sid →
        mapLookup ((mapInsert s.awaiting s.sequence_id w').filter
          (fun p => p.1 != s.sequence_id)) k ≠ some w := by
      intro k hk hcontra
      exact hins2 k hk (mapLookup_filter_some _ _ _ _ hcontra)
    cases hl : mapLookup s.awaiting s.sequence_id with
    | none =>
      exact ⟨by simpa [muxStep, Request.into_frame, mapRemove, hl, hrem]
          using hfil1,
        fun k hk => by
          simpa [muxStep, Request.into_frame, mapRemove, hl, hrem]
            using hfil2 k hk,
        by simp [muxStep, Request.into_frame, mapRemove, hl, hrem,
          callResolved, hw'],
        by simp [muxStep, Request.into_frame, mapRemove, hl, hrem]⟩
    | some wOld =>
      have hwOld := hdropped wOld hl
      exact ⟨by simpa [muxStep, Request.into_frame, mapRemove, hl, hrem]
          using hfil1,
        fun k hk => by
          simpa [muxStep, Request.into_frame, mapRemove, hl, hrem]
            using hfil2 k hk,
        by simp [muxStep, Request.into_frame, mapRemove, hl, hrem,
          callResolved, hw', hwOld],
        by simp [muxStep, Request.into_frame, mapRemove, hl, hrem]⟩

/-- Persistence of the waiter registered at sequence id 0 (waiter 0) across
any continuation in which no frame carries sequence-id byte 0, every further
submission uses a fresh waiter, and at most `50 - j` further submissions
occur — `j` counts submissions already consumed, so the counter, which
advances by 5 mod 255 per submission, never returns to 0 within the run. -/
theorem mux_waiter_persists (es : List SerialEvent) :
    ∀ (s : MuxState) (j : Nat),
    s.sequence_id = (5 * (j + 1)) % 255 →
    j + submitCount es ≤ 50 →
    mapLookup s.awaiting 0 = some 0 →
    (∀ k, k ≠ 0 → mapLookup s.awaiting k ≠ some 0) →
    (∀ e ∈ es, eventSafeFor 0 0 e = true) →
    mapLookup (muxRun s es).1.awaiting 0 = some 0
    ∧ (∀ k, k ≠ 0 → mapLookup (muxRun s es).1.awaiting k ≠ some 0)
    ∧ callResolved (muxRun s es).2 0 = false := by
  induction es with
  | nil => intro s j _ _ hw hno _; exact ⟨hw, hno, rfl⟩
  | cons e es ih =>
    intro s j hseq hcount hw hno hsafe
    have hsafehd := hsafe e (List.mem_cons_self _ _)
    have hsafetl := fun e' he' => hsafe e' (List.mem_cons_of_mem e he')
    have hassemble : ∀ (s' : MuxState) (out : List SerialOutcome) (j' : Nat),
        muxStep s e = (s', out) →
        s'.sequence_id = (5 * (j' + 1)) % 255 →
        j' + submitCount es ≤ 50 →
        mapLookup s'.awaiting 0 = some 0 →
        (∀ k, k ≠ 0 → mapLookup s'.awaiting k ≠ some 0) →
        callResolved out 0 = false →
        mapLookup (muxRun s (e :: es)).1.awaiting 0 = some 0
        ∧ (∀ k, k ≠ 0 → mapLookup (muxRun s (e :: es)).1.awaiting k ≠ some 0)
        ∧ callResolved (muxRun s (e :: es)).2 0 = false := by
      intro s' out j' hstep hseq' hcount' h1 h2 h3
      obtain ⟨g1, g2, g3⟩ := ih s' j' hseq' hcount' h1 h2 hsafetl
      rcases hrun : muxRun s' es with ⟨s'', outs⟩
      rw [hrun] at g1 g2 g3
      refine ⟨?_, ?_, ?_⟩
      · simpa [muxRun, hstep, hrun] using g1
      · intro k hk
        simpa [muxRun, hstep, hrun] using g2 k hk
      · simp only [muxRun, hstep, hrun]
        simp only [callResolved, List.any_append] at h3 g3 ⊢
        simp [h3, g3]
    cases he : isSubmitEvent e with
    | false =>
      have hcnt : submitCount (e :: es) = submitCount es := by
        simp [submitCount, List.countP_cons, he]
      obtain ⟨h1, h2, h3, h4⟩ := muxStep_safe s e 0 0 hw hno hsafehd he
      rcases hstep : muxStep s e with ⟨s', out⟩
      rw [hstep] at h1 h2 h3 h4
      refine hassemble s' out j hstep (by rw [h4, hseq]) ?_ h1 h2 h3
      rw [hcnt] at hcount
      exact hcount
    | true =>
      cases e with
      | submit w' request writeResult =>
        have hw'0 : w' ≠ 0 := by
          simpa [eventSafeFor] using hsafehd
        have hcnt : submitCount (SerialEvent.submit w' request writeResult :: es)
            = submitCount es + 1 := by
          simp [submitCount, List.countP_cons, isSubmitEvent]
        rw [hcnt] at hcount
        have hlt : 5 * (j + 1) < 255 := by omega
        have hseqv : s.sequence_id = 5 * (j + 1) := by
          rw [hseq, Nat.mod_eq_of_lt hlt]
        have hc0 : s.sequence_id ≠ 0 := by
          rw [hseqv]
          omega
        obtain ⟨h1, h2, h3, h4⟩ := muxStep_submit_safe s w' request
          writeResult 0 0 hc0 hw'0 hw hno
        rcases hstep : muxStep s (.submit w' request writeResult)
          with ⟨s', out⟩
        rw [hstep] at h1 h2 h3 h4
        refine hassemble s' out (j + 1) hstep ?_ (by omega) h1 h2 h3
        rw [h4, hseqv]
        unfold nextSequenceId
        congr 1
      | frame bytes bok => simp [isSubmitEvent] at he
      | readError err => simp [isSubmitEvent] at he

/-- Claim C1, corrected: a serial request submission to which no response
frame carrying its sequence id ever arrives has no timeout applied.  For the
first submission (sequence id 0, waiter 0) and every continuation in which
no frame carries sequence-id byte 0, each further submission uses its own
fresh oneshot, and at most 50 further submissions occur — the counter
advances by 5 mod 255, so the 51st reuse of sequence id 0 is the only way
the entry can be displaced (surfacing `ChannelError`, still not a timeout;
see `mux_wraparound_displaces`) — the submitter's call never resolves and
the waiter entry remains in `serial_waiters`. -/
theorem c1_no_timeout (es : List SerialEvent)
    (hsafe : ∀ e ∈ es, eventSafeFor 0 0 e = true)
    (hcount : submitCount es ≤ 50) :
    mapLookup (muxRun initMux
      (SerialEvent.submit 0 Request.Version none :: es)).1.awaiting 0 = some 0
    ∧ callResolved (muxRun initMux
      (SerialEvent.submit 0 Request.Version none :: es)).2 0 = false := by
  have hno : ∀ k, k ≠ 0 →
      mapLookup ([(0, 0)] : List (Nat × Nat)) k ≠ some 0 := by
    intro k hk
    have : ((0 : Nat) == k) = false := by
      simp [Ne.symm hk]
    simp [mapLookup, List.find?, this]
  obtain ⟨g1, _g2, g3⟩ := mux_waiter_persists es
    { sequence_id := 5, awaiting := [(0, 0)], rxAlive := true } 0 rfl
    (by simpa using hcount) rfl hno hsafe
  have hexp : muxRun initMux (SerialEvent.submit 0 Request.Version none :: es)
      = ((muxRun { sequence_id := 5, awaiting := [(0, 0)], rxAlive := true }
            es).1,
         [] ++ (muxRun { sequence_id := 5, awaiting := [(0, 0)], rxAlive := true }
            es).2) := rfl
  rw [hexp]
  exact ⟨g1, by simpa using g3⟩

/-- Witness for `c1_no_timeout`: after the submission, a frame for another
sequence id (5), a further submission (fresh waiter 1, allocated sequence
id 5) and a read error arrive; the waiter for sequence id 0 is still
registered and the call has not resolved. -/
theorem c1_no_timeout_witness :
    mapLookup (muxRun initMux
      [SerialEvent.submit 0 Request.Version none,
       SerialEvent.frame [0x07, 5, 0, 6, 0, 0x2E] true,
       SerialEvent.submit 1 Request.DeviceState none,
       SerialEvent.readError .ChannelError]).1.awaiting 0 = some 0
    ∧ callResolved (muxRun initMux
      [SerialEvent.submit 0 Request.Version none,
       SerialEvent.frame [0x07, 5, 0, 6, 0, 0x2E] true,
       SerialEvent.submit 1 Request.DeviceState none,
       SerialEvent.readError .ChannelError]).2 0 = false :=
  c1_no_timeout
    [SerialEvent.frame [0x07, 5, 0, 6, 0, 0x2E] true,
     SerialEvent.submit 1 Request.DeviceState none,
     SerialEvent.readError .ChannelError]
    (by decide) (by decide)

/-- Boundary of `c1_no_timeout`'s submission bound, traced concretely: after
51 further submissions the sequence counter, advancing by 5 mod 255, wraps
to 0, and `HashMap::insert` displaces the unanswered waiter — its oneshot
sender is dropped (`dropWaiter 0`), so the first caller's `receiver.await`
resolves with `ChannelError`, not with a timeout. -/
theorem mux_wraparound_displaces :
    callResolved (muxRun initMux
      (SerialEvent.submit 0 Request.Version none
        :: List.replicate 51 (SerialEvent.submit 1 Request.Version none))).2
      0 = true
    ∧ mapLookup (muxRun initMux
      (SerialEvent.submit 0 Request.Version none
        :: List.replicate 51 (SerialEvent.submit 1 Request.Version none))).1.awaiting
      0 = some 1 := by
  constructor <;> decide

/-- Counterexample to claim C1 as stated: the first submission (waiter 0,
`Request::Version`, transport write succeeded) to which no response frame
ever arrives.  Contrary to the claim, the submitter's call has not resolved
— the run produces no outcome at all, in particular no timeout error
(`ErrorKind` has no timeout variant) — and the waiter entry for the
allocated sequence id 0 has not been removed from `serial_waiters`;
`c1_no_timeout` extends this to every continuation in which no frame for
sequence id 0 arrives. -/
theorem c1_counterexample :
    callResolved
      (muxRun initMux [SerialEvent.submit 0 Request.Version none]).2 0 = false
    ∧ mapLookup (muxRun initMux
        [SerialEvent.submit 0 Request.Version none]).1.awaiting 0 = some 0
    ∧ (muxRun initMux [SerialEvent.submit 0 Request.Version none]).2 = []
    ∧ (muxRun initMux
        [SerialEvent.submit 0 Request.Version none]).1.awaiting = [(0, 0)] :=
  ⟨rfl, rfl, rfl, rfl⟩

/-! ### Claim C2 — coordinator backpressure

Between two consecutive device-state broadcasts with
`data_request_free_slots = true`, the coordinator issues at most one
data-request serial command: dispatching clears the local flag and only a
free-true broadcast raises it again. -/

theorem indicationPoll_no_dataRequest (r : Except DriverError Response)
    (b : Bool) : dataRequestCount (indicationPoll r b) = 0 := by
  unfold dataRequestCount indicationPoll
  rcases r with e | resp
  · simp [isDataRequestCmd]
  · cases resp <;> cases b <;> simp [isDataRequestCmd]

theorem routeConfirm_no_dataRequest (aw : List (Nat × Nat))
    (rid : RequestId) (c : ApsDataConfirm) :
    dataRequestCount (routeConfirm aw rid c).2 = 0 := by
  unfold dataRequestCount routeConfirm mapRemove
  cases mapLookup aw rid <;> simp [isDataRequestCmd]

theorem confirmPoll_no_dataRequest (aw : List (Nat × Nat))
    (r : Except DriverError Response) :
    dataRequestCount (confirmPoll aw r).2 = 0 := by
  unfold confirmPoll
  rcases r with e | resp
  · simp [dataRequestCount, isDataRequestCmd]
  · cases resp <;>
      first
        | (rename_i ds rid c
           have h := routeConfirm_no_dataRequest aw rid c
           rcases hrc : routeConfirm aw rid c with ⟨aw', outs⟩
           rw [hrc] at h
           simp only [dataRequestCount] at h ⊢
           simp [hrc, isDataRequestCmd, h])
        | simp [dataRequestCount, isDataRequestCmd]

theorem apsStep_deviceState (s : ApsState) (d : DeviceState)
    (ir cr : Except DriverError Response) (sk : Bool) :
    (apsStep s (.deviceState d ir cr sk)).1.request_free_slots
        = d.data_request_free_slots
    ∧ dataRequestCount (apsStep s (.deviceState d ir cr sk)).2 = 0 := by
  have hind : dataRequestCount
      (if d.data_indication then indicationPoll ir sk else []) = 0 := by
    cases hi : d.data_indication
    · simp [dataRequestCount]
    · simpa using indicationPoll_no_dataRequest ir sk
  have h := confirmPoll_no_dataRequest s.awaiting cr
  rcases hcp : confirmPoll s.awaiting cr with ⟨aw', outs⟩
  rw [hcp] at h
  cases hc : d.data_confirm
  · constructor
    · simp [apsStep, hc]
    · simpa [apsStep, hc] using hind
  · constructor
    · simp [apsStep, hc, hcp]
    · simp only [apsStep, hc, hcp]
      simp [dataRequestCount, List.countP_append] at hind h ⊢
      exact ⟨hind, h⟩

theorem apsStep_request (s : ApsState) (req : ApsDataRequest) (w : Nat)
    (rr : Except DriverError Response) :
    (apsStep s (.request req w rr)).1.request_free_slots = false
    ∧ dataRequestCount (apsStep s (.request req w rr)).2
        = (if s.request_free_slots then 1 else 0) := by
  unfold apsStep
  cases hf : s.request_free_slots
  · simp [hf]
    rfl
  · rcases rr with e | resp
    · simp [dataRequestCount, isDataRequestCmd]
    · cases resp <;> simp [dataRequestCount, isDataRequestCmd]

theorem apsRun_dataRequest_bound (es : List ApsEvent) :
    ∀ s : ApsState, (∀ e ∈ es, ¬ isFreeTrueBroadcast e) →
    dataRequestCount (apsRun s es).2
      ≤ (if s.request_free_slots then 1 else 0) := by
  induction es with
  | nil => intro s _; simp [apsRun, dataRequestCount]
  | cons e es ih =>
    intro s hse
    have htail : ∀ e' ∈ es, ¬ isFreeTrueBroadcast e' :=
      fun e' he' => hse e' (List.mem_cons_of_mem e he')
    rcases hstep : apsStep s e with ⟨s', out⟩
    rcases hrun : apsRun s' es with ⟨s'', outs⟩
    have hsum : dataRequestCount (apsRun s (e :: es)).2
        = dataRequestCount out + dataRequestCount outs := by
      simp [apsRun, hstep, hrun, dataRequestCount, List.countP_append]
    rw [hsum]
    cases e with
    | deviceState d ir cr sk =>
      have hd : d.data_request_free_slots = false := by
        have := hse _ (List.mem_cons_self _ _)
        simpa [isFreeTrueBroadcast] using this
      obtain ⟨hflag, hcount⟩ := apsStep_deviceState s d ir cr sk
      rw [hstep] at hflag hcount
      have hflag' : s'.request_free_slots = false := by
        simpa [hd] using hflag
      have hcount' : dataRequestCount out = 0 := by simpa using hcount
      have hb := ih s' htail
      rw [hrun] at hb
      simp only [hflag'] at hb
      simp at hb
      simp [hcount', hb]
    | request req w rr =>
      obtain ⟨hflag, hcount⟩ := apsStep_request s req w rr
      rw [hstep] at hflag hcount
      have hflag' : s'.request_free_slots = false := by simpa using hflag
      have hcount' : dataRequestCount out
          = (if s.request_free_slots then 1 else 0) := by simpa using hcount
      have hb := ih s' htail
      rw [hrun] at hb
      simp only [hflag'] at hb
      simp at hb
      simp only [hcount', hb]
      cases hf : s.request_free_slots <;> simp [hf, hb]

/-- Claim C2: the coordinator never issues two data-request serial commands
between two consecutive device-state broadcasts with
`data_request_free_slots = true`.  Conjunct 1: after processing a free-true
broadcast, any run of select firings containing no further free-true
broadcast issues at most one data-request serial command.  Conjunct 2:
consuming a submission always leaves `request_free_slots` false.  Conjunct
3: from a state with the flag down, a step raises it exactly when the event
is a device-state broadcast with `data_request_free_slots = true`. -/
theorem aps_backpressure :
    (∀ (s : ApsState) (d : DeviceState) (ir cr : Except DriverError Response)
        (sk : Bool) (es : List ApsEvent),
        d.data_request_free_slots = true →
        (∀ e ∈ es, ¬ isFreeTrueBroadcast e) →
        dataRequestCount
          (apsRun (apsStep s (.deviceState d ir cr sk)).1 es).2 ≤ 1)
    ∧ (∀ (s : ApsState) (req : ApsDataRequest) (w : Nat)
        (rr : Except DriverError Response),
        (apsStep s (.request req w rr)).1.request_free_slots = false)
    ∧ (∀ (s : ApsState) (e : ApsEvent), s.request_free_slots = false →
        ((apsStep s e).1.request_free_slots = true ↔ isFreeTrueBroadcast e)) := by
  refine ⟨?_, ?_, ?_⟩
  · intro s d ir cr sk es hd hes
    have hflag := (apsStep_deviceState s d ir cr sk).1
    have hb := apsRun_dataRequest_bound es (apsStep s (.deviceState d ir cr sk)).1 hes
    rw [hflag, hd] at hb
    simpa using hb
  · intro s req w rr
    exact (apsStep_request s req w rr).1
  · intro s e hs
    cases e with
    | deviceState d ir cr sk =>
      rw [(apsStep_deviceState s d ir cr sk).1]
      simp [isFreeTrueBroadcast]
    | request req w rr =>
      rw [(apsStep_request s req w rr).1]
      simp [isFreeTrueBroadcast]

/-- Witness for `aps_backpressure`: after a free-true broadcast, two queued
submissions produce at most one data-request serial command (the second
waits for the next free-true broadcast). -/
theorem aps_backpressure_witness :
    dataRequestCount
      (apsRun
        (apsStep initAps
          (.deviceState
            ⟨NetworkState.Connected, false, false, true, false⟩
            (.error .Todo) (.error .Todo) true)).1
        [.request ⟨Destination.Group ⟨1⟩, ⟨1⟩, ⟨2⟩, ⟨1⟩, []⟩ 0
            (.ok (Response.ApsDataRequest DeviceState.default 0)),
         .request ⟨Destination.Group ⟨2⟩, ⟨1⟩, ⟨2⟩, ⟨1⟩, []⟩ 1
            (.ok (Response.ApsDataRequest DeviceState.default 1))]).2 ≤ 1 :=
  aps_backpressure.1 initAps
    ⟨NetworkState.Connected, false, false, true, false⟩
    (.error .Todo) (.error .Todo) true _ rfl
    (by intro e he; fin_cases he <;> simp [isFreeTrueBroadcast])

/-! ### Claim C3 — confirmation routing

Whenever the confirm poll returns a confirmation carrying `RequestId` r: a
registered waiter for r is removed and signalled with exactly that
`ApsDataConfirm`; with no waiter for r, the confirmation is discarded (the
table and deliveries are untouched) and `UnsolicitedConfirm(r)` is produced.
The first conjunct also shows only r's entry is affected, which is why
intervening confirmations for other request ids cannot disturb a waiter:
routing is strictly by request id. -/

/-- Claim C3: on a confirm poll returning a confirmation with request id
`r`, `ApsConfirms::aps_data_confirm` removes the waiter registered for `r`
(when present) and signals it with exactly that confirmation, leaving every
other entry of `confirm_waiters` unchanged; when no waiter is registered for
`r` it leaves the table untouched, delivers nothing, and produces the
`UnsolicitedConfirm(r)` error. -/
theorem aps_confirm_routing (aw : List (Nat × Nat)) (ds : DeviceState)
    (r : RequestId) (c : ApsDataConfirm) :
    (∀ w, mapLookup aw r = some w →
      apsDataConfirmPoll aw (.ok (Response.ApsDataConfirm ds r c)) =
        (.ok (), aw.filter (fun p => p.1 != r), [(w, .ok c)])
      ∧ mapLookup (aw.filter (fun p => p.1 != r)) r = none
      ∧ (∀ r', r' ≠ r →
          mapLookup (aw.filter (fun p => p.1 != r)) r' = mapLookup aw r'))
    ∧ (mapLookup aw r = none →
      apsDataConfirmPoll aw (.ok (Response.ApsDataConfirm ds r c)) =
        (.error (.UnsolicitedConfirm r), aw, [])) := by
  constructor
  · intro w hw
    refine ⟨?_, mapLookup_filter_self aw r,
      fun r' hr' => mapLookup_filter_ne aw r r' hr'⟩
    simp [apsDataConfirmPoll, Awaiting.send, Awaiting.deregister, mapRemove, hw]
  · intro hw
    simp [apsDataConfirmPoll, Awaiting.send, Awaiting.deregister, mapRemove,
      hw, filter_eq_self_of_lookup_none aw r hw]

/-- Witness for `aps_confirm_routing`, at a table holding waiter 9 for
request id 2: the routed case at id 2 and the unsolicited case at id 5. -/
theorem aps_confirm_routing_witness :
    apsDataConfirmPoll [(2, 9)]
        (.ok (Response.ApsDataConfirm DeviceState.default 2
          ⟨Destination.Group ⟨1⟩, ⟨1⟩, 0⟩)) =
      (.ok (), [], [(9, .ok ⟨Destination.Group ⟨1⟩, ⟨1⟩, 0⟩)])
    ∧ apsDataConfirmPoll [(2, 9)]
        (.ok (Response.ApsDataConfirm DeviceState.default 5
          ⟨Destination.Group ⟨1⟩, ⟨1⟩, 0⟩)) =
      (.error (.UnsolicitedConfirm 5), [(2, 9)], []) :=
  ⟨((aps_confirm_routing [(2, 9)] DeviceState.default 2
      ⟨Destination.Group ⟨1⟩, ⟨1⟩, 0⟩).1 9 rfl).1,
   (aps_confirm_routing [(2, 9)] DeviceState.default 5
      ⟨Destination.Group ⟨1⟩, ⟨1⟩, 0⟩).2 rfl⟩

end Tophamm
